import Mathlib

/-!
Verification of the resumable background file-transfer manager of the
dillinger server (`2.server/src/network/network_manager.rs` and
`2.server/src/network/file_transfer.rs`).

Shallow embedding conventions:
* `uuid::Uuid` is modelled as `Nat`; freshness of a generated id becomes an
  explicit parameter or hypothesis where a claim needs it.
* `PathBuf` is modelled as `String` (paths are opaque to the manager).
* The global `HashMap<Uuid, FileTransfer>` behind the mutex is modelled as an
  association list with replacing insertion; the async mutex disappears in the
  sequential model, so each `lock().await` boundary becomes ordinary sequencing.
* Every fallible external effect of a worker run (the initial metadata probe,
  the local file length, opening the destination file, sending the download
  request, each received chunk and its file write) is an input, collected in a
  `WorkerEnv`.  A Rust `Err` that the code `.unwrap()`s becomes a `panicked`
  outcome; a handled `Err` follows the code's handling.
* Both clocks (`tokio::time::Instant` for the chunking interval and
  `SystemTime` for `chunks_added_since`) are modelled by one millisecond
  counter: each chunk event carries the instant at which it arrived.
  `Instant::duration_since` saturates at zero, matching `Nat` subtraction.
* The `f64` bandwidth expression of `get_file_transfers_summary` is abstracted
  by a parameter `bw : Nat → Nat → Nat` (numerator `chunks_added`, elapsed
  milliseconds); the theorems about the summary hold for every such function,
  hence in particular for the rounded `f64` computation of the source.
* The summary's `time_elapsed` is the raw `u128` subtraction
  `now_millis - chunks_added_since`.  Release-build wrapping semantics are
  modelled (`u128_wrapping_sub`): when a record's last sample instant lies
  after `now`, the subtraction wraps to a huge positive elapsed value and the
  division branch is taken (a debug build would panic on the overflow
  instead).
-/

/-- `FileTransferState` from `file_transfer.rs` lines 7-12. -/
inductive FileTransferState where
  | NotStarted
  | InProgress
  | Completed
  | Failed
deriving DecidableEq, Repr

/-- `FileTransferStatus` from `file_transfer.rs` lines 15-18. -/
structure FileTransferStatus where
  state : FileTransferState
  reason : String
deriving DecidableEq, Repr

/-- `FileTransferStatus::new` from `file_transfer.rs` lines 21-26. -/
def FileTransferStatus.new : FileTransferStatus :=
  { state := FileTransferState.NotStarted, reason := "" }

/-- `FileTransfer` from `file_transfer.rs` lines 30-40 (`transfer_id : Nat`
models `uuid::Uuid`, `local_file : String` models `PathBuf`). -/
structure FileTransfer where
  transfer_id : Nat
  remote_url : String
  local_file : String
  size : Nat
  chunks_added : Nat
  chunks_added_since : Nat
  transferred : Nat
  bandwidth : Nat
  status : FileTransferStatus
deriving DecidableEq, Repr

/-- `FileTransfer::new` from `file_transfer.rs` lines 43-58; the fresh
`uuid::Uuid::new_v4()` is passed in as `id`. -/
def FileTransfer.new (id : Nat) : FileTransfer :=
  { transfer_id := id
    remote_url := ""
    local_file := ""
    size := 0
    chunks_added := 0
    chunks_added_since := 0
    transferred := 0
    bandwidth := 0
    status := { state := FileTransferState.NotStarted, reason := "Not Started" } }

/-- `FileTransferMessage` from `file_transfer.rs` lines 63-67. -/
structure FileTransferMessage where
  component : String
  file_transfers : List FileTransfer
  total_bandwidth : Nat
deriving DecidableEq, Repr

/-- `FileTransferMessage::new` from `file_transfer.rs` lines 70-76. -/
def FileTransferMessage.new : FileTransferMessage :=
  { component := "network", file_transfers := [], total_bandwidth := 0 }

/-- The registry: the `HashMap<uuid::Uuid, FileTransfer>` behind the global
mutex (`network_manager.rs` line 21), as an association list. -/
abbrev Registry := List (Nat × FileTransfer)

/-- `HashMap::get` / `get_mut` on the model. -/
def Registry.lookup (id : Nat) : Registry → Option FileTransfer
  | [] => none
  | (k, ft) :: rest => if k = id then some ft else Registry.lookup id rest

/-- `HashMap::insert` on the model: replaces any existing binding of `id`. -/
def Registry.insert (id : Nat) (ft : FileTransfer) (m : Registry) : Registry :=
  (id, ft) :: m.filter (fun p => p.1 != id)

/-- `HashMap::values` on the model. -/
def Registry.values (m : Registry) : List FileTransfer :=
  m.map (fun p => p.2)

/-- `add_file_transfer` from `network_manager.rs` lines 65-79: builds
`FileTransfer::new()`, overwrites `remote_url`, `local_file` and `status`
(state `InProgress`, empty reason), inserts it under its id and returns the
id.  The random fresh uuid is the parameter `id`. -/
def add_file_transfer (url : String) (destination : String) (id : Nat)
    (m : Registry) : Registry :=
  let ft := { FileTransfer.new id with
                remote_url := url
                local_file := destination
                status := { state := FileTransferState.InProgress, reason := "" } }
  Registry.insert id ft m

/-- `remove_file_transfer` from `network_manager.rs` lines 81-84. -/
def remove_file_transfer (transfer_id : Nat) (m : Registry) : Registry :=
  m.filter (fun p => p.1 != transfer_id)

/-- Wrapping `u128` subtraction (release-build Rust semantics): both
operands reduced into `u128` range, the difference taken modulo `2^128`.
When `b ≤ a` (and both are in range) this is plain subtraction; when
`a < b` it wraps to `a + 2^128 - b`. -/
def u128_wrapping_sub (a b : Nat) : Nat :=
  (a % 2 ^ 128 + 2 ^ 128 - b % 2 ^ 128) % 2 ^ 128

/-- The per-record body of the summary loop, `network_manager.rs` lines
45-57: `time_elapsed` is the raw `u128` subtraction
`now_millis - chunks_added_since` (wrapping, so a `chunks_added_since` after
`now` yields a huge positive value, not a skipped division); if it is
positive the record's `bandwidth` is recomputed from `chunks_added` and the
new bandwidth is the record's contribution to `total_bandwidth`, otherwise
(only `time_elapsed = 0`, i.e. `now = chunks_added_since` in `u128` range)
the record is left as is and contributes `0`.  `bw` abstracts the `f64`
expression `(chunks_added * 1000.0) / (time_elapsed * 1024.0)` truncated to
an integer. -/
def summaryStep (bw : Nat → Nat → Nat) (now : Nat) (ft : FileTransfer) :
    FileTransfer × Nat :=
  let time_elapsed := u128_wrapping_sub now ft.chunks_added_since
  if 0 < time_elapsed then
    let b := bw ft.chunks_added time_elapsed
    ({ ft with bandwidth := b }, b)
  else
    (ft, 0)

/-- `get_file_transfers_summary` from `network_manager.rs` lines 32-63:
snapshot the records whose state is `InProgress`, then (lock released)
recompute each clone's bandwidth and accumulate `total_bandwidth`. -/
def get_file_transfers_summary (bw : Nat → Nat → Nat) (now : Nat)
    (m : Registry) : FileTransferMessage :=
  let ft_vec := (Registry.values m).filter
    (fun ft => ft.status.state == FileTransferState.InProgress)
  let pairs := ft_vec.map (summaryStep bw now)
  { FileTransferMessage.new with
      file_transfers := pairs.map Prod.fst
      total_bandwidth := (pairs.map Prod.snd).sum }

/-- One received chunk in a worker run: its byte length, the instant (ms) at
which it arrived, and whether `file.write_all` succeeds for it. -/
structure ChunkEvent where
  len : Nat
  t : Nat
  write_ok : Bool
deriving DecidableEq, Repr

/-- The external effects consumed by one `start_file_transfer` run, in the
order the code performs them (`network_manager.rs` lines 86-188). -/
structure WorkerEnv where
  /-- `reqwest::get(remote_url)`: `Err e`, or `Ok content_length` where `none`
  models an absent or unparseable `CONTENT_LENGTH` header. -/
  probe : Except String (Option Nat)
  /-- byte length of the destination file, `none` if it does not exist. -/
  local_len : Option Nat
  /-- result of `fs::OpenOptions::new().create(true).append(true).open(..)`. -/
  open_ok : Except String Unit
  /-- `request.send()`: `Err`, or `Ok (status().is_success())`. -/
  send : Except String Bool
  /-- `Instant::now()` at the top of the streaming loop (initial `last_pass`). -/
  stream_start : Nat
  /-- the successfully received chunks, in order. -/
  chunks : List ChunkEvent
  /-- `none`: the stream ends with `Ok(None)`; `some e`: after the listed
  chunks, `response.chunk()` returns `Err e`. -/
  stream_end : Option String
deriving Repr

/-- Outcome of a worker run: a normal return, or a Rust panic (every
`.unwrap()` on an `Err`/`None`).  Both carry the registry as it stands when
the run ends. -/
inductive WorkerOutcome where
  | normal (m : Registry)
  | panicked (m : Registry) (msg : String)
deriving Repr

/-- The registry left behind by a worker run. -/
def WorkerOutcome.reg : WorkerOutcome → Registry
  | WorkerOutcome.normal m => m
  | WorkerOutcome.panicked m _ => m

/-- `true` iff the run ended in a panic. -/
def WorkerOutcome.isPanic : WorkerOutcome → Bool
  | WorkerOutcome.normal _ => false
  | WorkerOutcome.panicked _ _ => true

/-- The download request of `network_manager.rs` lines 139-143: a GET for
`url` with an optional `RANGE` header. -/
structure DownloadRequest where
  url : String
  range : Option String
deriving DecidableEq, Repr

/-- Request construction, lines 139-143: the `RANGE` header
`bytes=local_file_size-` is attached exactly when `local_file_size > 0`. -/
def request_for (url : String) (local_file_size : Nat) : DownloadRequest :=
  { url := url
    range := if 0 < local_file_size
             then some ("bytes=" ++ toString local_file_size ++ "-")
             else none }

/-- The streaming loop, `network_manager.rs` lines 146-188: append each chunk,
accumulate `last_chunks`, and on a chunk with
`now.duration_since(last_pass).as_millis() >= interval` commit the accumulated
bytes to the record (`transferred += last_chunks`, `chunks_added :=
last_chunks`, `chunks_added_since := now`) and reset `last_pass` and
`last_chunks`.  When the stream is exhausted the record is marked `Completed`;
the residual `last_chunks` of the final partial interval is dropped.  A failed
write, a failed chunk read, or a vanished record panics via `.unwrap()`. -/
def streamLoop (interval : Nat) (transfer_id : Nat) (last_pass : Nat)
    (last_chunks : Nat) (events : List ChunkEvent) (stream_end : Option String)
    (m : Registry) : WorkerOutcome :=
  match events with
  | [] =>
    match stream_end with
    | some e => WorkerOutcome.panicked m e
    | none =>
      match Registry.lookup transfer_id m with
      | none => WorkerOutcome.panicked m "called Option::unwrap on a None value"
      | some ft =>
        WorkerOutcome.normal (Registry.insert transfer_id
          { ft with status := { state := FileTransferState.Completed, reason := "" } } m)
  | ev :: rest =>
    if ev.write_ok then
      let last_chunks1 := last_chunks + ev.len
      if interval ≤ ev.t - last_pass then
        match Registry.lookup transfer_id m with
        | none => WorkerOutcome.panicked m "called Option::unwrap on a None value"
        | some ft =>
          streamLoop interval transfer_id ev.t 0 rest stream_end
            (Registry.insert transfer_id
              { ft with transferred := ft.transferred + last_chunks1
                        chunks_added := last_chunks1
                        chunks_added_since := ev.t } m)
      else
        streamLoop interval transfer_id last_pass last_chunks1 rest stream_end m
    else
      WorkerOutcome.panicked m "file write failed"

/-- Lines 101-127 of `network_manager.rs` on a successful probe: store the
probed `size` (`content_length.getD 0` models `unwrap_or(0)`), then store the
local file length (`local_len.getD 0`, `0` when the destination does not
exist) as `transferred`.  `none` exactly when the record is absent, in which
case the code's `get_mut(..).unwrap()` panics with the registry unchanged. -/
def pre_stream_registry (content_length : Option Nat) (local_len : Option Nat)
    (transfer_id : Nat) (m : Registry) : Option Registry :=
  match Registry.lookup transfer_id m with
  | none => none
  | some ft =>
    let m1 := Registry.insert transfer_id { ft with size := content_length.getD 0 } m
    match Registry.lookup transfer_id m1 with
    | none => none
    | some ft1 =>
      some (Registry.insert transfer_id
        { ft1 with transferred := local_len.getD 0 } m1)

/-- `start_file_transfer` from `network_manager.rs` lines 86-188, composed
from its phases in source order: probe the remote and on error set
`Failed(reason)` and return (the only handled failure); store `size` and the
resume offset (`pre_stream_registry`); open the destination (`.unwrap()`);
build the GET with its optional `RANGE` header; send it (`.unwrap()`); on a
success status run the streaming loop, on a non-success status return with
the record untouched.  The second component is the download request the run
issued, if it got that far. -/
def start_file_transfer (interval : Nat) (env : WorkerEnv) (transfer_id : Nat)
    (remote_url : String) (m : Registry) :
    WorkerOutcome × Option DownloadRequest :=
  match env.probe with
  | Except.error e =>
    match Registry.lookup transfer_id m with
    | none => (WorkerOutcome.panicked m "called Option::unwrap on a None value", none)
    | some ft =>
      (WorkerOutcome.normal (Registry.insert transfer_id
        { ft with status := { state := FileTransferState.Failed,
                              reason := "Error getting remote file (size): " ++ e } } m),
       none)
  | Except.ok content_length =>
    match pre_stream_registry content_length env.local_len transfer_id m with
    | none => (WorkerOutcome.panicked m "called Option::unwrap on a None value", none)
    | some m2 =>
      let local_file_size := env.local_len.getD 0
      match env.open_ok with
      | Except.error e => (WorkerOutcome.panicked m2 e, none)
      | Except.ok _ =>
        let request := request_for remote_url local_file_size
        match env.send with
        | Except.error e => (WorkerOutcome.panicked m2 e, some request)
        | Except.ok is_success =>
          if is_success then
            (streamLoop interval transfer_id env.stream_start 0 env.chunks
               env.stream_end m2,
             some request)
          else
            (WorkerOutcome.normal m2, some request)

/-- The snapshot taken by `start_file_transfers`, `network_manager.rs` lines
194-201: all `(transfer_id, remote_url)` pairs of the registry, with no
filtering on status. -/
def start_file_transfers_snapshot (m : Registry) : List (Nat × String) :=
  m.map (fun p => (p.1, p.2.remote_url))

/-- The loop of `start_file_transfers`, lines 204-208: awaits each
`start_file_transfer` in turn; a panic inside one run unwinds through the
caller. -/
def start_file_transfers_go (interval : Nat) (envOf : Nat → WorkerEnv) :
    List (Nat × String) → Registry → WorkerOutcome
  | [], m => WorkerOutcome.normal m
  | (id, url) :: rest, m =>
    match start_file_transfer interval (envOf id) id url m with
    | (WorkerOutcome.normal m1, _) => start_file_transfers_go interval envOf rest m1
    | (WorkerOutcome.panicked m1 e, _) => WorkerOutcome.panicked m1 e

/-- `start_file_transfers` from `network_manager.rs` lines 190-209. -/
def start_file_transfers (interval : Nat) (envOf : Nat → WorkerEnv)
    (m : Registry) : WorkerOutcome :=
  start_file_transfers_go interval envOf (start_file_transfers_snapshot m) m

/-- The integer shadow of the source's `f64` bandwidth expression
`(chunks_added * 1000.0) / (time_elapsed * 1024.0)`, used to instantiate the
`bw` parameter in concrete evaluations. -/
def bwEx : Nat → Nat → Nat :=
  fun chunks_added time_elapsed => chunks_added * 1000 / (time_elapsed * 1024)

/-- Fixture: the url of the spec's Scenario A. -/
def exUrl : String := "http://x/10MB.bin"

/-- Fixture: a registry holding one freshly registered transfer (id 7). -/
def exReg : Registry := add_file_transfer exUrl "/tmp/a.bin" 7 []

/-- Fixture: the record that `add_file_transfer exUrl "/tmp/a.bin" 7` inserts. -/
def ftEx : FileTransfer :=
  { transfer_id := 7
    remote_url := exUrl
    local_file := "/tmp/a.bin"
    size := 0
    chunks_added := 0
    chunks_added_since := 0
    transferred := 0
    bandwidth := 0
    status := { state := FileTransferState.InProgress, reason := "" } }

/-- Fixture: a record (id 3) that has already reached `Completed`. -/
def ftDone : FileTransfer :=
  { FileTransfer.new 3 with
      remote_url := "u"
      status := { state := FileTransferState.Completed, reason := "" } }

/-- Fixture: a registry holding only the completed record `ftDone`. -/
def mDone : Registry := [(3, ftDone)]

/-- Fixture: an `InProgress` record (id 5) whose last sample time equals the
summary instant `10`, so its elapsed time is zero. -/
def ftZero : FileTransfer :=
  { FileTransfer.new 5 with
      remote_url := "v"
      chunks_added := 7
      chunks_added_since := 10
      status := { state := FileTransferState.InProgress, reason := "" } }

/-- Fixture: `ftZero` alongside the registered transfer of `exReg`. -/
def mMix : Registry := (5, ftZero) :: exReg

/-- Fixture: an `InProgress` record (id 8) whose last sample instant 11 lies
after the summary instant 10 used below, carrying a nonzero stored
bandwidth. -/
def ftSkew : FileTransfer :=
  { FileTransfer.new 8 with
      remote_url := "w"
      chunks_added := 3
      chunks_added_since := 11
      bandwidth := 5
      status := { state := FileTransferState.InProgress, reason := "" } }

/-- Fixture: a registry holding only `ftSkew`. -/
def mSkew : Registry := [(8, ftSkew)]

/-- Fixture environment: the metadata probe fails with a connection error. -/
def envProbeErr : WorkerEnv :=
  { probe := Except.error "connection refused"
    local_len := none
    open_ok := Except.ok ()
    send := Except.ok true
    stream_start := 0
    chunks := []
    stream_end := none }

/-- Fixture environment: the probe succeeds but opening the destination file
fails. -/
def envOpenFail : WorkerEnv :=
  { probe := Except.ok (some 10)
    local_len := none
    open_ok := Except.error "permission denied"
    send := Except.ok true
    stream_start := 0
    chunks := []
    stream_end := none }

/-- Fixture environment: a 1000-byte remote delivered in one chunk arriving
at instant 2 (so a 2 ms chunking interval fires on it). -/
def envTick : WorkerEnv :=
  { probe := Except.ok (some 1000)
    local_len := none
    open_ok := Except.ok ()
    send := Except.ok true
    stream_start := 0
    chunks := [{ len := 1000, t := 2, write_ok := true }]
    stream_end := none }

/-- Fixture environment: the spec's Scenario A remote (10_485_760 bytes) on
an empty destination, delivered in a single chunk at instant 5 — faster than
a 100 ms chunking interval. -/
def envFast : WorkerEnv :=
  { probe := Except.ok (some 10485760)
    local_len := none
    open_ok := Except.ok ()
    send := Except.ok true
    stream_start := 0
    chunks := [{ len := 10485760, t := 5, write_ok := true }]
    stream_end := none }

/-- Fixture environment: the spec's Scenario B — 4_000_000 bytes already on
disk, the remaining 6_485_760 bytes streamed in two chunks. -/
def envResume : WorkerEnv :=
  { probe := Except.ok (some 10485760)
    local_len := some 4000000
    open_ok := Except.ok ()
    send := Except.ok true
    stream_start := 0
    chunks := [{ len := 6000000, t := 1, write_ok := true },
               { len := 485760, t := 2, write_ok := true }]
    stream_end := none }

/-! ### Helper lemmas -/

theorem Registry.lookup_insert (id : Nat) (ft : FileTransfer) (m : Registry) :
    Registry.lookup id (Registry.insert id ft m) = some ft := by
  simp [Registry.insert, Registry.lookup]

/-- The wrapping subtraction is zero exactly when its operands agree in
`u128` range. -/
theorem u128_wrapping_sub_eq_zero_iff (a b : Nat) :
    u128_wrapping_sub a b = 0 ↔ a % 2 ^ 128 = b % 2 ^ 128 := by
  unfold u128_wrapping_sub
  have ha : a % 2 ^ 128 < 2 ^ 128 := Nat.mod_lt _ (by positivity)
  have hb : b % 2 ^ 128 < 2 ^ 128 := Nat.mod_lt _ (by positivity)
  omega

/-- `summaryStep` never changes a record's status. -/
theorem summaryStep_status (bw : Nat → Nat → Nat) (now : Nat)
    (ft : FileTransfer) : (summaryStep bw now ft).1.status = ft.status := by
  by_cases hc : 0 < u128_wrapping_sub now ft.chunks_added_since <;>
    simp [summaryStep, hc]

/-- On a record whose stored bandwidth is `0`, the contribution of a record
to `total_bandwidth` equals the bandwidth field of the clone the summary
returns for it. -/
theorem summaryStep_snd (bw : Nat → Nat → Nat) (now : Nat) (ft : FileTransfer)
    (h : ft.bandwidth = 0) :
    (summaryStep bw now ft).2 = (summaryStep bw now ft).1.bandwidth := by
  by_cases hc : 0 < u128_wrapping_sub now ft.chunks_added_since <;>
    simp [summaryStep, hc, h]

/-- The accumulated `total_bandwidth` over a list of zero-bandwidth records
equals the sum of the bandwidth fields of the returned clones. -/
theorem summary_snd_sum (bw : Nat → Nat → Nat) (now : Nat) :
    ∀ l : List FileTransfer, (∀ ft ∈ l, ft.bandwidth = 0) →
      ((l.map (summaryStep bw now)).map Prod.snd).sum =
        (((l.map (summaryStep bw now)).map Prod.fst).map
          (fun ft => ft.bandwidth)).sum := by
  intro l
  induction l with
  | nil => intro _; simp
  | cons ft rest ih =>
    intro h
    simp only [List.map_cons, List.sum_cons]
    rw [ih (fun x hx => h x (List.mem_cons_of_mem _ hx)),
        summaryStep_snd bw now ft (h ft (List.mem_cons_self _ _))]

/-- A zero-interval streaming run with only successful writes and a clean end
of stream completes the record and adds every streamed byte to
`transferred`. -/
theorem streamLoop_zero_interval (transfer_id : Nat) :
    ∀ (evs : List ChunkEvent) (lp : Nat) (m : Registry) (ft : FileTransfer),
      Registry.lookup transfer_id m = some ft →
      (∀ ev ∈ evs, ev.write_ok = true) →
      ∃ m' ft',
        streamLoop 0 transfer_id lp 0 evs none m = WorkerOutcome.normal m' ∧
        Registry.lookup transfer_id m' = some ft' ∧
        ft'.transferred = ft.transferred + (evs.map (fun ev => ev.len)).sum ∧
        ft'.status = { state := FileTransferState.Completed, reason := "" } := by
  intro evs
  induction evs with
  | nil =>
    intro lp m ft hl _
    refine ⟨Registry.insert transfer_id
        { ft with status := { state := FileTransferState.Completed, reason := "" } } m,
      { ft with status := { state := FileTransferState.Completed, reason := "" } },
      ?_, Registry.lookup_insert _ _ _, by simp, rfl⟩
    simp [streamLoop, hl]
  | cons ev rest ih =>
    intro lp m ft hl hw
    have hev : ev.write_ok = true := hw ev (List.mem_cons_self _ _)
    have hrest : ∀ x ∈ rest, x.write_ok = true :=
      fun x hx => hw x (List.mem_cons_of_mem _ hx)
    obtain ⟨m', ft', h1, h2, h3, h4⟩ :=
      ih ev.t (Registry.insert transfer_id
        { ft with transferred := ft.transferred + (0 + ev.len)
                  chunks_added := 0 + ev.len
                  chunks_added_since := ev.t } m)
        _ (Registry.lookup_insert _ _ _) hrest
    refine ⟨m', ft', ?_, h2, ?_, h4⟩
    · rw [← h1]
      simp [streamLoop, hev, hl, Nat.zero_le]
    · simp only [List.map_cons, List.sum_cons] at h3 ⊢
      simp at h3
      omega

/-- The streaming loop never writes the `bandwidth` field: whatever outcome a
run has, the record's bandwidth is the one it started with. -/
theorem streamLoop_bandwidth (transfer_id interval : Nat) :
    ∀ (evs : List ChunkEvent) (lp lc : Nat) (se : Option String)
      (m : Registry) (ft : FileTransfer),
      Registry.lookup transfer_id m = some ft →
      (Registry.lookup transfer_id
        (streamLoop interval transfer_id lp lc evs se m).reg).map
          (fun x => x.bandwidth) = some ft.bandwidth := by
  intro evs
  induction evs with
  | nil =>
    intro lp lc se m ft hl
    cases se with
    | none =>
      simp [streamLoop, hl, WorkerOutcome.reg, Registry.lookup_insert]
    | some e =>
      simp [streamLoop, hl, WorkerOutcome.reg]
  | cons ev rest ih =>
    intro lp lc se m ft hl
    by_cases hwr : ev.write_ok
    · by_cases htick : interval ≤ ev.t - lp
      · have := ih ev.t 0 se
          (Registry.insert transfer_id
            { ft with transferred := ft.transferred + (lc + ev.len)
                      chunks_added := lc + ev.len
                      chunks_added_since := ev.t } m)
          _ (Registry.lookup_insert _ _ _)
        simpa [streamLoop, hwr, htick, hl] using this
      · have := ih lp (lc + ev.len) se m ft hl
        simpa [streamLoop, hwr, htick] using this
    · simp [streamLoop, hwr, WorkerOutcome.reg, hl]

/-- If no chunk of a clean run reaches the chunking interval, the loop makes
no progress commit at all: the registry is only touched to mark the record
`Completed`. -/
theorem streamLoop_no_tick (transfer_id interval : Nat) :
    ∀ (evs : List ChunkEvent) (lp lc : Nat) (m : Registry) (ft : FileTransfer),
      Registry.lookup transfer_id m = some ft →
      (∀ ev ∈ evs, ev.write_ok = true ∧ ev.t - lp < interval) →
      streamLoop interval transfer_id lp lc evs none m =
        WorkerOutcome.normal (Registry.insert transfer_id
          { ft with status := { state := FileTransferState.Completed,
                                reason := "" } } m) := by
  intro evs
  induction evs with
  | nil =>
    intro lp lc m ft hl _
    simp [streamLoop, hl]
  | cons ev rest ih =>
    intro lp lc m ft hl hw
    have hev := hw ev (List.mem_cons_self _ _)
    have htick : ¬ interval ≤ ev.t - lp := by omega
    have hrest : ∀ x ∈ rest, x.write_ok = true ∧ x.t - lp < interval :=
      fun x hx => hw x (List.mem_cons_of_mem _ hx)
    rw [show streamLoop interval transfer_id lp lc (ev :: rest) none m =
          streamLoop interval transfer_id lp (lc + ev.len) rest none m by
        simp [streamLoop, hev.1, htick]]
    exact ih lp (lc + ev.len) m ft hl hrest

/-- When the record is present, the probe-ok prelude stores the probed size
and the local resume offset on it. -/
theorem pre_stream_registry_some (cl ll : Option Nat) (transfer_id : Nat)
    (m : Registry) (ft : FileTransfer)
    (hl : Registry.lookup transfer_id m = some ft) :
    pre_stream_registry cl ll transfer_id m =
      some (Registry.insert transfer_id
        { ft with size := cl.getD 0, transferred := ll.getD 0 }
        (Registry.insert transfer_id { ft with size := cl.getD 0 } m)) := by
  simp [pre_stream_registry, hl, Registry.lookup_insert]

/-- A whole worker run never writes the `bandwidth` field of its record. -/
theorem start_file_transfer_bandwidth (interval : Nat) (env : WorkerEnv)
    (transfer_id : Nat) (url : String) (m : Registry) (ft : FileTransfer)
    (hl : Registry.lookup transfer_id m = some ft) :
    (Registry.lookup transfer_id
      ((start_file_transfer interval env transfer_id url m).1.reg)).map
        (fun x => x.bandwidth) = some ft.bandwidth := by
  cases hp : env.probe with
  | error e =>
    simp [start_file_transfer, hp, hl, WorkerOutcome.reg, Registry.lookup_insert]
  | ok cl =>
    have hpre := pre_stream_registry_some cl env.local_len transfer_id m ft hl
    have hl2 := Registry.lookup_insert transfer_id
      { ft with size := cl.getD 0, transferred := env.local_len.getD 0 }
      (Registry.insert transfer_id { ft with size := cl.getD 0 } m)
    cases ho : env.open_ok with
    | error e =>
      simp [start_file_transfer, hp, hpre, ho, WorkerOutcome.reg, hl2]
    | ok u =>
      cases hs : env.send with
      | error e =>
        simp [start_file_transfer, hp, hpre, ho, hs, WorkerOutcome.reg, hl2]
      | ok is_success =>
        cases is_success with
        | false =>
          simp [start_file_transfer, hp, hpre, ho, hs, WorkerOutcome.reg, hl2]
        | true =>
          have := streamLoop_bandwidth transfer_id interval env.chunks
            env.stream_start 0 env.stream_end
            (Registry.insert transfer_id
              { ft with size := cl.getD 0, transferred := env.local_len.getD 0 }
              (Registry.insert transfer_id { ft with size := cl.getD 0 } m))
            _ hl2
          simpa [start_file_transfer, hp, hpre, ho, hs] using this

/-! ### Claim theorems -/

/-- C1 (amended): `add_file_transfer url destination` always succeeds and
maps the returned id to a record with `remote_url = url`,
`local_file = destination`, `transferred = 0` — but with status `InProgress`,
not `NotStarted`: lines 69-72 overwrite the `NotStarted` status of
`FileTransfer::new` before the record is inserted. -/
theorem C1_register_record :
    ∀ (url destination : String) (id : Nat) (m : Registry),
      Registry.lookup id (add_file_transfer url destination id m) =
        some { transfer_id := id
               remote_url := url
               local_file := destination
               size := 0
               chunks_added := 0
               chunks_added_since := 0
               transferred := 0
               bandwidth := 0
               status := { state := FileTransferState.InProgress,
                           reason := "" } } := by
  intro url destination id m
  simp [add_file_transfer, Registry.lookup_insert, FileTransfer.new]

/-- C1 counterexample: the claim requires the registered record to have
status `NotStarted`, but the record registered in `exReg` has status
`InProgress`. -/
theorem C1_counterexample :
    (Registry.lookup 7 exReg).map (fun ft => ft.status.state) =
        some FileTransferState.InProgress ∧
      FileTransferState.InProgress ≠ FileTransferState.NotStarted := by
  decide

/-- C9 (confirmed): the summary returns exactly the snapshot's `InProgress`
records (each as its bandwidth-refreshed clone): every returned record is
`InProgress`, and every `InProgress` record of the registry is returned. -/
theorem C9_summary_filtering :
    ∀ (bw : Nat → Nat → Nat) (now : Nat) (m : Registry),
      (∀ ft ∈ (get_file_transfers_summary bw now m).file_transfers,
        ft.status.state = FileTransferState.InProgress) ∧
      (∀ ft ∈ Registry.values m,
        ft.status.state = FileTransferState.InProgress →
        (summaryStep bw now ft).1 ∈
          (get_file_transfers_summary bw now m).file_transfers) := by
  intro bw now m
  constructor
  · intro ft hft
    simp only [get_file_transfers_summary, List.map_map, List.mem_map,
      List.mem_filter, Function.comp, beq_iff_eq] at hft
    obtain ⟨ft0, ⟨_, hst⟩, rfl⟩ := hft
    rw [show (summaryStep bw now ft0).1.status.state = ft0.status.state by
      rw [summaryStep_status]]
    exact hst
  · intro ft hv hst
    simp only [get_file_transfers_summary, List.map_map, List.mem_map,
      List.mem_filter, Function.comp, beq_iff_eq]
    exact ⟨ft, ⟨hv, hst⟩, rfl⟩

/-- C9 witness: in the registry `exReg` the record `ftEx` is `InProgress`,
and its refreshed clone is in the summary's transfer list. -/
theorem C9_witness :
    (summaryStep bwEx 10 ftEx).1 ∈
      (get_file_transfers_summary bwEx 10 exReg).file_transfers :=
  (C9_summary_filtering bwEx 10 exReg).2 ftEx (by decide) (by decide)

/-- C10 (amended): on any registry whose records carry the bandwidth the
operations can produce (`0`: no operation ever writes `bandwidth` into the
registry, see `start_file_transfer_bandwidth`), `total_bandwidth` equals the
sum of the `bandwidth` fields of the returned transfers (first conjunct).
The division is skipped — the record passed through unchanged with
contribution `0` — exactly when the wrapping `u128` subtraction yields `0`,
i.e. when `now` equals the record's `chunks_added_since` in `u128` range
(second conjunct); for every other record, including one whose last sample
lies after `now` (negative true elapsed time, wrapped by the subtraction),
the division is performed and overwrites the record's bandwidth (third
conjunct). -/
theorem C10_summary_totals :
    ∀ (bw : Nat → Nat → Nat) (now : Nat) (m : Registry),
      (∀ ft ∈ Registry.values m, ft.bandwidth = 0) →
      ((get_file_transfers_summary bw now m).total_bandwidth =
        ((get_file_transfers_summary bw now m).file_transfers.map
          (fun ft => ft.bandwidth)).sum) ∧
      (∀ ft : FileTransfer,
        now % 2 ^ 128 = ft.chunks_added_since % 2 ^ 128 →
        summaryStep bw now ft = (ft, 0)) ∧
      (∀ ft : FileTransfer,
        now % 2 ^ 128 ≠ ft.chunks_added_since % 2 ^ 128 →
        summaryStep bw now ft =
          ({ ft with
               bandwidth :=
                 bw ft.chunks_added
                   (u128_wrapping_sub now ft.chunks_added_since) },
           bw ft.chunks_added (u128_wrapping_sub now ft.chunks_added_since))) := by
  intro bw now m hz
  refine ⟨?_, ?_, ?_⟩
  · have hzf : ∀ ft ∈ (Registry.values m).filter
        (fun ft => ft.status.state == FileTransferState.InProgress),
        ft.bandwidth = 0 := fun ft hft => hz ft (List.mem_filter.mp hft).1
    simpa only [get_file_transfers_summary, List.map_map] using
      summary_snd_sum bw now _ hzf
  · intro ft h0
    have hz0 : u128_wrapping_sub now ft.chunks_added_since = 0 :=
      (u128_wrapping_sub_eq_zero_iff now ft.chunks_added_since).mpr h0
    simp [summaryStep, hz0]
  · intro ft h0
    have hne : u128_wrapping_sub now ft.chunks_added_since ≠ 0 :=
      fun h => h0 ((u128_wrapping_sub_eq_zero_iff now ft.chunks_added_since).mp h)
    simp [summaryStep, Nat.pos_of_ne_zero hne]

/-- C10 witness: on `mMix` the total equals the sum of the returned
bandwidth fields; `ftZero` (sampled exactly at the summary instant 10) is
passed through with contribution `0`; `ftSkew` (sampled at instant 11, after
the summary instant) takes the division branch with the wrapped elapsed. -/
theorem C10_witness :
    ((get_file_transfers_summary bwEx 10 mMix).total_bandwidth =
      ((get_file_transfers_summary bwEx 10 mMix).file_transfers.map
        (fun ft => ft.bandwidth)).sum) ∧
    summaryStep bwEx 10 ftZero = (ftZero, 0) ∧
    summaryStep bwEx 10 ftSkew =
      ({ ftSkew with bandwidth := bwEx 3 (u128_wrapping_sub 10 11) },
       bwEx 3 (u128_wrapping_sub 10 11)) :=
  ⟨(C10_summary_totals bwEx 10 mMix (by decide)).1,
   (C10_summary_totals bwEx 10 mMix (by decide)).2.1 ftZero rfl,
   (C10_summary_totals bwEx 10 mMix (by decide)).2.2 ftSkew (by decide)⟩

/-- C10 counterexample: the record of `mSkew` was last sampled at instant 11,
one millisecond after the summary instant 10 — its true elapsed time is not
positive — yet the summary does not keep its prior bandwidth `5`: the `u128`
subtraction wraps to `2^128 - 1`, the division branch is taken, and the
returned record carries the division's result `0`. -/
theorem C10_counterexample :
    (get_file_transfers_summary bwEx 10 mSkew).file_transfers.map
        (fun ft => ft.bandwidth) = [0] ∧
      ftSkew.bandwidth = 5 ∧ (0 : Nat) ≠ 5 := by
  decide

/-- C3 (amended): only the initial metadata-probe failure is handled — it
sets `Failed` with the human-readable reason
`Error getting remote file (size): ..` and returns normally.  Every other
failure mode panics through `.unwrap()`: a failed destination-file open, a
mid-stream read error (`response.chunk()` returning `Err`), and a failed
file write. -/
theorem C3_failure_paths :
    ∀ (interval : Nat) (env : WorkerEnv) (transfer_id : Nat) (url : String)
      (m : Registry) (ft : FileTransfer),
      Registry.lookup transfer_id m = some ft →
      ((∀ e, env.probe = Except.error e →
        start_file_transfer interval env transfer_id url m =
          (WorkerOutcome.normal (Registry.insert transfer_id
            { ft with status :=
                { state := FileTransferState.Failed,
                  reason := "Error getting remote file (size): " ++ e } } m),
           none)) ∧
       (∀ cl e, env.probe = Except.ok cl → env.open_ok = Except.error e →
        (start_file_transfer interval env transfer_id url m).1.isPanic = true) ∧
       (∀ cl e, env.probe = Except.ok cl → env.open_ok = Except.ok () →
        env.send = Except.ok true → env.chunks = [] → env.stream_end = some e →
        (start_file_transfer interval env transfer_id url m).1.isPanic = true) ∧
       (∀ cl ev rest, env.probe = Except.ok cl → env.open_ok = Except.ok () →
        env.send = Except.ok true → env.chunks = ev :: rest →
        ev.write_ok = false →
        (start_file_transfer interval env transfer_id url m).1.isPanic = true)) := by
  intro interval env transfer_id url m ft hl
  refine ⟨?_, ?_, ?_, ?_⟩
  · intro e hp
    simp [start_file_transfer, hp, hl]
  · intro cl e hp ho
    simp [start_file_transfer, hp, ho,
      pre_stream_registry_some cl env.local_len transfer_id m ft hl,
      WorkerOutcome.isPanic]
  · intro cl e hp ho hs hc hse
    simp [start_file_transfer, hp, ho, hs, hc, hse,
      pre_stream_registry_some cl env.local_len transfer_id m ft hl,
      streamLoop, WorkerOutcome.isPanic]
  · intro cl ev rest hp ho hs hc hw
    simp [start_file_transfer, hp, ho, hs, hc, hw,
      pre_stream_registry_some cl env.local_len transfer_id m ft hl,
      streamLoop, WorkerOutcome.isPanic]

/-- C3 witness: on the registered transfer of `exReg`, a probe failure sets
`Failed` with its reason and returns normally, while an open failure
panics. -/
theorem C3_witness :
    (start_file_transfer 100 envProbeErr 7 exUrl exReg =
      (WorkerOutcome.normal (Registry.insert 7
        { ftEx with status :=
            { state := FileTransferState.Failed,
              reason := "Error getting remote file (size): " ++
                "connection refused" } } exReg),
       none)) ∧
    (start_file_transfer 100 envOpenFail 7 exUrl exReg).1.isPanic = true :=
  ⟨(C3_failure_paths 100 envProbeErr 7 exUrl exReg ftEx (by decide)).1
      "connection refused" rfl,
   (C3_failure_paths 100 envOpenFail 7 exUrl exReg ftEx (by decide)).2.1
      (some 10) "permission denied" rfl rfl⟩

/-- C3 counterexample: when opening the destination file fails for the
transfer registered in `exReg`, the worker panics instead of returning
normally, and the record is never set to `Failed`. -/
theorem C3_counterexample :
    (start_file_transfer 100 envOpenFail 7 exUrl exReg).1.isPanic = true ∧
    (Registry.lookup 7
        ((start_file_transfer 100 envOpenFail 7 exUrl exReg).1.reg)).map
        (fun ft => ft.status.state) ≠ some FileTransferState.Failed := by
  decide

/-- C5 (amended): status transitions are not guarded: a later worker run on
the same id overwrites a terminal status — re-running a `Completed` record
against a failing probe moves it to `Failed`. -/
theorem C5_terminal_overwritten :
    ∀ (interval : Nat) (env : WorkerEnv) (transfer_id : Nat) (url : String)
      (m : Registry) (ft : FileTransfer) (e : String),
      Registry.lookup transfer_id m = some ft →
      ft.status.state = FileTransferState.Completed →
      env.probe = Except.error e →
      ∃ m',
        start_file_transfer interval env transfer_id url m =
          (WorkerOutcome.normal m', none) ∧
        (Registry.lookup transfer_id m').map (fun x => x.status.state) =
          some FileTransferState.Failed := by
  intro interval env transfer_id url m ft e hl _ hp
  refine ⟨Registry.insert transfer_id
      { ft with status :=
          { state := FileTransferState.Failed,
            reason := "Error getting remote file (size): " ++ e } } m, ?_, ?_⟩
  · simp [start_file_transfer, hp, hl]
  · simp [Registry.lookup_insert]

/-- C5 witness: the completed record of `mDone` is moved to `Failed` by a
re-run whose probe fails. -/
theorem C5_witness :
    ∃ m',
      start_file_transfer 100 envProbeErr 3 "u" mDone =
        (WorkerOutcome.normal m', none) ∧
      (Registry.lookup 3 m').map (fun x => x.status.state) =
        some FileTransferState.Failed :=
  C5_terminal_overwritten 100 envProbeErr 3 "u" mDone ftDone "connection refused"
    (by decide) (by decide) rfl

/-- C5 counterexample: the record of `mDone` is `Completed`, yet after one
more worker run on its id its status reads `Failed`. -/
theorem C5_counterexample :
    (Registry.lookup 3 mDone).map (fun ft => ft.status.state) =
        some FileTransferState.Completed ∧
    (Registry.lookup 3
        ((start_file_transfer 100 envProbeErr 3 "u" mDone).1.reg)).map
        (fun ft => ft.status.state) = some FileTransferState.Failed ∧
      FileTransferState.Failed ≠ FileTransferState.Completed := by
  decide

/-- C6 (amended): `start_file_transfers` snapshots every registered transfer
regardless of its status — each registry entry contributes its
`(id, remote_url)` pair to the launch list, and the list has one entry per
record, with no filtering of `InProgress`, `Completed` or `Failed` ones. -/
theorem C6_start_all_unfiltered :
    (∀ (m : Registry) (id : Nat) (ft : FileTransfer),
      (id, ft) ∈ m → (id, ft.remote_url) ∈ start_file_transfers_snapshot m) ∧
    (∀ m : Registry, (start_file_transfers_snapshot m).length = m.length) := by
  constructor
  · intro m id ft hm
    simpa [start_file_transfers_snapshot] using
      List.mem_map_of_mem (fun p => (p.1, p.2.remote_url)) hm
  · intro m
    simp [start_file_transfers_snapshot]

/-- C6 witness: the `Completed` record of `mDone` is in the launch list. -/
theorem C6_witness :
    (3, ftDone.remote_url) ∈ start_file_transfers_snapshot mDone :=
  C6_start_all_unfiltered.1 mDone 3 ftDone (by decide)

/-- C6 counterexample: the record of `mDone` is already `Completed`, yet
`start_file_transfers` relaunches it — the relaunched worker (failing probe)
rewrites its status to `Failed`. -/
theorem C6_counterexample :
    (Registry.lookup 3 mDone).map (fun ft => ft.status.state) =
        some FileTransferState.Completed ∧
    (Registry.lookup 3
        ((start_file_transfers 100 (fun _ => envProbeErr) mDone).reg)).map
        (fun ft => ft.status.state) = some FileTransferState.Failed := by
  decide

/-- C7 (amended): a worker whose id is absent from the registry does not stop
silently — its `get_mut(..).unwrap()` panics, on the probe-error path and on
the probe-ok path alike. -/
theorem C7_missing_record_panics :
    ∀ (interval : Nat) (env : WorkerEnv) (transfer_id : Nat) (url : String)
      (m : Registry),
      Registry.lookup transfer_id m = none →
      (start_file_transfer interval env transfer_id url m).1.isPanic = true := by
  intro interval env transfer_id url m hl
  cases hp : env.probe with
  | error e => simp [start_file_transfer, hp, hl, WorkerOutcome.isPanic]
  | ok cl =>
    simp [start_file_transfer, hp, pre_stream_registry, hl,
      WorkerOutcome.isPanic]

/-- C7 witness: a worker run against the empty registry panics. -/
theorem C7_witness :
    (start_file_transfer 100 envProbeErr 0 "u" []).1.isPanic = true :=
  C7_missing_record_panics 100 envProbeErr 0 "u" [] (by decide)

/-- C7 counterexample: id 9 is not registered in `exReg`; the worker run on
it panics rather than returning normally. -/
theorem C7_counterexample :
    Registry.lookup 9 exReg = none ∧
    (start_file_transfer 2 envTick 9 exUrl exReg).1.isPanic = true := by
  decide

/-- C2 (amended): a clean run (record present, probe ok, destination opened,
success response, every write ok, stream exhausted normally) ends `Completed`
with `transferred` equal to the resume offset plus the bytes committed at
sampling ticks.  With interval `0` every chunk is committed, so `transferred`
equals the resume offset plus every streamed byte (this theorem); with a
positive interval the bytes accumulated after the last tick are dropped, so
the claimed equality with the remote size fails in general (see the
counterexample). -/
theorem C2_completed_transferred :
    ∀ (env : WorkerEnv) (transfer_id : Nat) (url : String) (m : Registry)
      (ft : FileTransfer) (cl : Option Nat),
      Registry.lookup transfer_id m = some ft →
      env.probe = Except.ok cl →
      env.open_ok = Except.ok () →
      env.send = Except.ok true →
      env.stream_end = none →
      (∀ ev ∈ env.chunks, ev.write_ok = true) →
      ∃ m' ft',
        (start_file_transfer 0 env transfer_id url m).1 =
          WorkerOutcome.normal m' ∧
        Registry.lookup transfer_id m' = some ft' ∧
        ft'.status = { state := FileTransferState.Completed, reason := "" } ∧
        ft'.transferred =
          env.local_len.getD 0 + (env.chunks.map (fun ev => ev.len)).sum := by
  intro env transfer_id url m ft cl hl hp ho hs hse hw
  have hpre := pre_stream_registry_some cl env.local_len transfer_id m ft hl
  have hl2 := Registry.lookup_insert transfer_id
    { ft with size := cl.getD 0, transferred := env.local_len.getD 0 }
    (Registry.insert transfer_id { ft with size := cl.getD 0 } m)
  obtain ⟨m', ft', h1, h2, h3, h4⟩ :=
    streamLoop_zero_interval transfer_id env.chunks env.stream_start _ _ hl2 hw
  refine ⟨m', ft', ?_, h2, h4, ?_⟩
  · simp [start_file_transfer, hp, hpre, ho, hs, hse, h1]
  · simpa using h3

/-- C2 witness: the resume scenario — 4_000_000 bytes already local, the
remaining 6_485_760 streamed in two committed chunks — ends `Completed` with
`transferred = 10_485_760`. -/
theorem C2_witness :
    ∃ m' ft',
      (start_file_transfer 0 envResume 7 exUrl exReg).1 =
        WorkerOutcome.normal m' ∧
      Registry.lookup 7 m' = some ft' ∧
      ft'.status = { state := FileTransferState.Completed, reason := "" } ∧
      ft'.transferred = 10485760 :=
  C2_completed_transferred envResume 7 exUrl exReg ftEx (some 10485760)
    (by decide) rfl rfl rfl rfl (by decide)

/-- C2 counterexample: Scenario A with a 100 ms chunking interval and the
whole 10_485_760-byte remote arriving in one chunk at instant 5: the run
ends `Completed` with `size = 10_485_760` but `transferred = 0` — the chunk
never reached a sampling tick and its bytes were dropped from the record. -/
theorem C2_counterexample :
    (Registry.lookup 7
        ((start_file_transfer 100 envFast 7 exUrl exReg).1.reg)).map
        (fun ft => (ft.status.state, ft.transferred, ft.size)) =
        some (FileTransferState.Completed, 0, 10485760) ∧
      (0 : Nat) ≠ 10485760 := by
  decide

/-- C4 (amended): on the first chunk for which at least the chunking interval
has elapsed since `last_pass`, the worker commits the accumulated bytes to
`transferred`, stores the byte count in `chunks_added` and the current time
in `chunks_added_since`, and resets the accumulator and `last_pass` (first
conjunct); it never computes or stores a bandwidth — a whole worker run
leaves the record's `bandwidth` field untouched (second conjunct; the
summary later derives bandwidth from `chunks_added` and
`chunks_added_since`); and a run none of whose chunks reaches the interval
performs no progress commit at all (third conjunct). -/
theorem C4_sampling_commit :
    (∀ (interval transfer_id lp lc : Nat) (ev : ChunkEvent)
       (rest : List ChunkEvent) (se : Option String) (m : Registry)
       (ft : FileTransfer),
       Registry.lookup transfer_id m = some ft → ev.write_ok = true →
       interval ≤ ev.t - lp →
       streamLoop interval transfer_id lp lc (ev :: rest) se m =
         streamLoop interval transfer_id ev.t 0 rest se
           (Registry.insert transfer_id
             { ft with transferred := ft.transferred + (lc + ev.len)
                       chunks_added := lc + ev.len
                       chunks_added_since := ev.t } m)) ∧
    (∀ (interval : Nat) (env : WorkerEnv) (transfer_id : Nat) (url : String)
       (m : Registry) (ft : FileTransfer),
       Registry.lookup transfer_id m = some ft →
       (Registry.lookup transfer_id
         ((start_file_transfer interval env transfer_id url m).1.reg)).map
           (fun x => x.bandwidth) = some ft.bandwidth) ∧
    (∀ (interval transfer_id lp lc : Nat) (evs : List ChunkEvent)
       (m : Registry) (ft : FileTransfer),
       Registry.lookup transfer_id m = some ft →
       (∀ ev ∈ evs, ev.write_ok = true ∧ ev.t - lp < interval) →
       streamLoop interval transfer_id lp lc evs none m =
         WorkerOutcome.normal (Registry.insert transfer_id
           { ft with status := { state := FileTransferState.Completed,
                                 reason := "" } } m)) := by
  refine ⟨?_, ?_, ?_⟩
  · intro interval transfer_id lp lc ev rest se m ft hl hwr htick
    simp [streamLoop, hl, hwr, htick]
  · intro interval env transfer_id url m ft hl
    exact start_file_transfer_bandwidth interval env transfer_id url m ft hl
  · intro interval transfer_id lp lc evs m ft hl hw
    exact streamLoop_no_tick transfer_id interval evs lp lc m ft hl hw

/-- C4 witness: with interval 2 a chunk arriving at instant 2 fires a commit
storing byte count and timestamp, and the `envTick` run leaves the record's
bandwidth at its initial `0`. -/
theorem C4_witness :
    (streamLoop 2 7 0 0 [{ len := 1000, t := 2, write_ok := true }] none
        exReg =
      streamLoop 2 7 2 0 [] none
        (Registry.insert 7
          { ftEx with transferred := 0 + (0 + 1000)
                      chunks_added := 0 + 1000
                      chunks_added_since := 2 } exReg)) ∧
    (Registry.lookup 7
        ((start_file_transfer 2 envTick 7 exUrl exReg).1.reg)).map
        (fun x => x.bandwidth) = some 0 :=
  ⟨C4_sampling_commit.1 2 7 0 0 { len := 1000, t := 2, write_ok := true } []
      none exReg ftEx (by decide) rfl (by decide),
   C4_sampling_commit.2.1 2 envTick 7 exUrl exReg ftEx (by decide)⟩

/-- C4 counterexample: the `envTick` run (one 1000-byte chunk at instant 2,
interval 2 ms) fires a sampling commit, yet afterwards the record's
`bandwidth` is still `0` instead of the claimed
`bytes_since_last_sample / elapsed = 1000 / 2`; the commit stored the raw
byte count and the timestamp instead. -/
theorem C4_counterexample :
    (Registry.lookup 7
        ((start_file_transfer 2 envTick 7 exUrl exReg).1.reg)).map
        (fun ft => (ft.bandwidth, ft.chunks_added, ft.chunks_added_since)) =
        some (0, 1000, 2) ∧
      (0 : Nat) ≠ 1000 / 2 := by
  decide

/-- C8 (confirmed): on any worker run that reaches the download request
(record present, probe succeeded, destination opened), the record's
`transferred` is set to the destination file's current length `L` (`0` when
the file does not exist) before any bytes are requested, and the issued
request carries the `RANGE` header `bytes=L-` exactly when `L > 0`. -/
theorem C8_resume_offset :
    ∀ (interval : Nat) (env : WorkerEnv) (transfer_id : Nat) (url : String)
      (m : Registry) (ft : FileTransfer) (cl : Option Nat),
      Registry.lookup transfer_id m = some ft →
      env.probe = Except.ok cl →
      env.open_ok = Except.ok () →
      ∃ m2 ftq,
        pre_stream_registry cl env.local_len transfer_id m = some m2 ∧
        Registry.lookup transfer_id m2 = some ftq ∧
        ftq.transferred = env.local_len.getD 0 ∧
        ftq.size = cl.getD 0 ∧
        (start_file_transfer interval env transfer_id url m).2 =
          some (request_for url (env.local_len.getD 0)) ∧
        ((request_for url (env.local_len.getD 0)).range = none ↔
          env.local_len.getD 0 = 0) ∧
        (0 < env.local_len.getD 0 →
          (request_for url (env.local_len.getD 0)).range =
            some ("bytes=" ++ toString (env.local_len.getD 0) ++ "-")) := by
  intro interval env transfer_id url m ft cl hl hp ho
  have hpre := pre_stream_registry_some cl env.local_len transfer_id m ft hl
  refine ⟨_, _, hpre, Registry.lookup_insert _ _ _, rfl, rfl, ?_, ?_, ?_⟩
  · rcases hs : env.send with e | b
    · simp [start_file_transfer, hp, hpre, ho, hs]
    · cases b <;> simp [start_file_transfer, hp, hpre, ho, hs]
  · by_cases h0 : 0 < env.local_len.getD 0 <;> simp [request_for, h0] <;> omega
  · intro h0
    simp [request_for, h0]

/-- C8 witness: the Scenario B run (`envResume`, 4_000_000 bytes already on
disk): `transferred` is set to 4_000_000 before the request, and the request
carries `bytes=4000000-`. -/
theorem C8_witness :
    ∃ m2 ftq,
      pre_stream_registry (some 10485760) envResume.local_len 7 exReg =
        some m2 ∧
      Registry.lookup 7 m2 = some ftq ∧
      ftq.transferred = 4000000 ∧
      ftq.size = 10485760 ∧
      (start_file_transfer 100 envResume 7 exUrl exReg).2 =
        some (request_for exUrl 4000000) ∧
      ((request_for exUrl 4000000).range = none ↔ (4000000 : Nat) = 0) ∧
      ((0 : Nat) < 4000000 →
        (request_for exUrl 4000000).range =
          some ("bytes=" ++ toString (4000000 : Nat) ++ "-")) :=
  C8_resume_offset 100 envResume 7 exUrl exReg ftEx (some 10485760)
    (by decide) rfl rfl
